import Mathlib

/-!
Verification of the pixel-readback interface declared in
src/libs/hwui/Readback.h (Android UI rendering engine). The header declares
the closed result enumeration CopyResult and the two static operations
Readback::copySurfaceInto and Readback::copyTextureLayerInto; the
implementation file is not among the sources, so the behaviour of the two
operations is modelled from the specification.
-/

namespace Hwui

/-- CopyResult, the closed result enumeration declared in
src/libs/hwui/Readback.h, kept in sync with the codes of PixelCopy.java. -/
inductive CopyResult where
  | Success
  | UnknownError
  | Timeout
  | SourceEmpty
  | SourceInvalid
  | DestinationInvalid
deriving DecidableEq

/-- numeric values assigned to the CopyResult enumerators in Readback.h. -/
def CopyResult.toNat : CopyResult → Nat
  | .Success => 0
  | .UnknownError => 1
  | .Timeout => 2
  | .SourceEmpty => 3
  | .SourceInvalid => 4
  | .DestinationInvalid => 5

/-- Modelled from the spec: Rect (declared in Rect.h, which is not among the
sources), an axis-aligned source-region descriptor with left, top, right and
bottom in source pixel coordinates. -/
structure Rect where
  left : Nat
  top : Nat
  right : Nat
  bottom : Nat

/-- width of the rectangle. -/
def Rect.w (r : Rect) : Nat := r.right - r.left

/-- height of the rectangle. -/
def Rect.h (r : Rect) : Nat := r.bottom - r.top

/-- Modelled from the spec: a GPU-resident pixel source (a queued buffer of a
surface, or the texture currently bound to a layer): a pixel grid with
dimensions. -/
structure Buffer where
  width : Nat
  height : Nat
  pix : Nat → Nat → Nat

/-- Modelled from the spec: the destination SkBitmap, an externally owned
mutable pixel buffer; a null SkBitmap pointer is represented as Option.none at
call sites. -/
structure Bitmap where
  width : Nat
  height : Nat
  pix : Nat → Nat → Nat

/-- Modelled from the spec: a Surface, a GPU-backed producer and consumer
buffer queue; queued lists the buffers queued so far, most recent first, and
valid is false when the surface reference is detached or destroyed. -/
structure Surface where
  queued : List Buffer
  valid : Bool

/-- most recently queued buffer of a surface, if the surface has ever queued
one. -/
def Surface.mostRecent (s : Surface) : Option Buffer := s.queued.head?

/-- Modelled from the spec: a TextureLayer; texture is the currently bound GPU
texture (none when no texture is bound) and valid is false when the layer
reference is stale or destroyed. -/
structure Layer where
  texture : Option Buffer
  valid : Bool

/-- Modelled from the spec: the behaviour of the render thread and the GPU for
one call: whether the render thread completes the transfer within the allowed
wait window, and whether the transfer itself runs without an internal
failure. -/
structure RenderEnv where
  completesInTime : Bool
  gpuOk : Bool

/-- a source rectangle is usable for a buffer when it is non-empty and lies
inside the buffer bounds; an incompatible rectangle makes the source unusable
(SourceInvalid in the spec's result mapping). -/
def Rect.validFor (r : Rect) (b : Buffer) : Bool :=
  decide (r.left < r.right) && decide (r.top < r.bottom) &&
    decide (r.right ≤ b.width) && decide (r.bottom ≤ b.height)

/-- a destination bitmap can receive a w by h copy when its dimensions are
non-zero and at least w by h; otherwise the destination is invalid. -/
def bitmapOk (b : Bitmap) (w h : Nat) : Bool :=
  decide (0 < b.width) && decide (0 < b.height) &&
    decide (w ≤ b.width) && decide (h ≤ b.height)

/-- writes the w by h region of src with origin (ox, oy) into the top-left
corner of the bitmap b, leaving every other pixel of b untouched. -/
def copyRegion (src : Buffer) (ox oy w h : Nat) (b : Bitmap) : Bitmap :=
  ⟨b.width, b.height,
    fun x y => if x < w ∧ y < h then src.pix (ox + x) (oy + y) else b.pix x y⟩

/-- Modelled from the spec: Readback::copySurfaceInto (its implementation file
is not among the sources; only the declaration in Readback.h is). The checks
follow the order of the spec's result mapping: SourceEmpty when the surface has
never queued a buffer, SourceInvalid when the surface reference or the source
rectangle is unusable, DestinationInvalid when the bitmap is null or cannot
receive the copy, Timeout when the render thread misses the wait window,
UnknownError on an internal failure, and otherwise Success with the source
rectangle content of the most recently queued buffer written into the bitmap.
The returned pair is the result code and the destination bitmap as the call
leaves it. -/
def copySurfaceInto (env : RenderEnv) (s : Surface) (r : Rect)
    (dst : Option Bitmap) : CopyResult × Option Bitmap :=
  match s.mostRecent with
  | none => (CopyResult.SourceEmpty, dst)
  | some buf =>
    if !s.valid || !(r.validFor buf) then (CopyResult.SourceInvalid, dst)
    else
      match dst with
      | none => (CopyResult.DestinationInvalid, none)
      | some b =>
        if !(bitmapOk b r.w r.h) then (CopyResult.DestinationInvalid, some b)
        else if !env.completesInTime then (CopyResult.Timeout, some b)
        else if !env.gpuOk then (CopyResult.UnknownError, some b)
        else (CopyResult.Success, some (copyRegion buf r.left r.top r.w r.h b))

/-- Modelled from the spec: Readback::copyTextureLayerInto (implementation not
among the sources). The layer variant takes no source rectangle: it captures
the layer's entire currently bound texture. The checks follow the spec's result
mapping order as in copySurfaceInto, with SourceEmpty when no texture is bound
and SourceInvalid when the layer reference is stale or destroyed. -/
def copyTextureLayerInto (env : RenderEnv) (l : Layer)
    (dst : Option Bitmap) : CopyResult × Option Bitmap :=
  match l.texture with
  | none => (CopyResult.SourceEmpty, dst)
  | some tex =>
    if !l.valid then (CopyResult.SourceInvalid, dst)
    else
      match dst with
      | none => (CopyResult.DestinationInvalid, none)
      | some b =>
        if !(bitmapOk b tex.width tex.height) then (CopyResult.DestinationInvalid, some b)
        else if !env.completesInTime then (CopyResult.Timeout, some b)
        else if !env.gpuOk then (CopyResult.UnknownError, some b)
        else (CopyResult.Success, some (copyRegion tex 0 0 tex.width tex.height b))

/-- a readback request: one of the two static operations together with its
borrowed arguments. -/
inductive Call where
  | surf : Surface → Rect → Option Bitmap → Call
  | layer : Layer → Option Bitmap → Call

/-- performs one request under the given render-thread behaviour. -/
def perform (env : RenderEnv) : Call → CopyResult × Option Bitmap
  | .surf s r dst => copySurfaceInto env s r dst
  | .layer l dst => copyTextureLayerInto env l dst

/-- Modelled from the spec: the render thread serializes requests in its queue
order; the service itself keeps no state, so a sequence of requests is each
request performed on its own arguments. -/
def performAll (cs : List (RenderEnv × Call)) : List (CopyResult × Option Bitmap) :=
  cs.map (fun ec => perform ec.1 ec.2)

/-- all source and destination checks of a request pass, so a transfer is
actually submitted to the render thread. -/
def Call.checksPass : Call → Bool
  | .surf s r dst =>
    match s.mostRecent with
    | none => false
    | some buf =>
      s.valid && r.validFor buf &&
        (match dst with
         | none => false
         | some b => bitmapOk b r.w r.h)
  | .layer l dst =>
    match l.texture with
    | none => false
    | some tex =>
      l.valid &&
        (match dst with
         | none => false
         | some b => bitmapOk b tex.width tex.height)

/-- the source checks of a request pass: the surface has a queued buffer, is
valid and the rectangle is usable; respectively the layer has a bound texture
and is valid. -/
def Call.sourceOk : Call → Bool
  | .surf s r _ =>
    match s.mostRecent with
    | none => false
    | some buf => s.valid && r.validFor buf
  | .layer l _ =>
    match l.texture with
    | none => false
    | some _ => l.valid

/-- destination bitmap of a request. -/
def Call.dst : Call → Option Bitmap
  | .surf _ _ d => d
  | .layer _ d => d

/-- the destination bitmap is null or has a zero dimension. -/
def badDst : Option Bitmap → Bool
  | none => true
  | some b => decide (b.width = 0) || decide (b.height = 0)

/-- every CopyResult value is one of the six declared enumerators. -/
theorem copyResult_cases (c : CopyResult) :
    c = CopyResult.Success ∨ c = CopyResult.UnknownError ∨ c = CopyResult.Timeout ∨
      c = CopyResult.SourceEmpty ∨ c = CopyResult.SourceInvalid ∨
      c = CopyResult.DestinationInvalid := by
  cases c <;> simp

/-- a request whose checks pass, performed under a render thread that completes
in time with a healthy GPU, returns Success. -/
theorem perform_success (env : RenderEnv) (c : Call) (hc : c.checksPass = true)
    (ht : env.completesInTime = true) (hg : env.gpuOk = true) :
    (perform env c).1 = CopyResult.Success := by
  cases c with
  | surf s r dst =>
    simp only [Call.checksPass] at hc
    cases hq : s.mostRecent with
    | none => rw [hq] at hc; simp at hc
    | some buf =>
      rw [hq] at hc
      cases dst with
      | none => simp at hc
      | some b =>
        simp at hc
        obtain ⟨⟨hv, hr⟩, hb⟩ := hc
        show (copySurfaceInto env s r (some b)).1 = _
        unfold copySurfaceInto
        rw [hq]
        simp [hv, hr, hb, ht, hg]
  | layer l dst =>
    simp only [Call.checksPass] at hc
    cases hq : l.texture with
    | none => rw [hq] at hc; simp at hc
    | some tex =>
      rw [hq] at hc
      cases dst with
      | none => simp at hc
      | some b =>
        simp at hc
        obtain ⟨hv, hb⟩ := hc
        show (copyTextureLayerInto env l (some b)).1 = _
        unfold copyTextureLayerInto
        rw [hq]
        simp [hv, hb, ht, hg]

/-- C1: CopyResult is a closed enumeration of exactly six members with pinned
numeric values: Success = 0, UnknownError = 1, Timeout = 2, SourceEmpty = 3,
SourceInvalid = 4, DestinationInvalid = 5. -/
theorem copyResult_pinned_values :
    CopyResult.toNat CopyResult.Success = 0 ∧
    CopyResult.toNat CopyResult.UnknownError = 1 ∧
    CopyResult.toNat CopyResult.Timeout = 2 ∧
    CopyResult.toNat CopyResult.SourceEmpty = 3 ∧
    CopyResult.toNat CopyResult.SourceInvalid = 4 ∧
    CopyResult.toNat CopyResult.DestinationInvalid = 5 ∧
    ∀ c : CopyResult,
      c = CopyResult.Success ∨ c = CopyResult.UnknownError ∨ c = CopyResult.Timeout ∨
        c = CopyResult.SourceEmpty ∨ c = CopyResult.SourceInvalid ∨
        c = CopyResult.DestinationInvalid :=
  ⟨rfl, rfl, rfl, rfl, rfl, rfl, copyResult_cases⟩

/-- C2: every call of copySurfaceInto or copyTextureLayerInto returns exactly
one value of the closed six-member CopyResult enumeration; failure is signalled
only through the returned value, never through another channel. -/
theorem every_call_returns_a_copyResult :
    ∀ (env : RenderEnv) (c : Call),
      (perform env c).1 ∈ [CopyResult.Success, CopyResult.UnknownError,
        CopyResult.Timeout, CopyResult.SourceEmpty, CopyResult.SourceInvalid,
        CopyResult.DestinationInvalid] := by
  intro env c
  rcases copyResult_cases (perform env c).1 with h | h | h | h | h | h <;> simp [h]

/-- C3: for every surface with a queued buffer, a valid source rectangle and a
compatible destination bitmap, under a render thread that completes within the
wait window and a transfer with no internal failure, copySurfaceInto returns
Success and the copied region of the bitmap equals the source rectangle content
of the most recently queued buffer. -/
theorem copySurfaceInto_success (env : RenderEnv) (s : Surface) (r : Rect)
    (buf : Buffer) (b : Bitmap)
    (hq : s.mostRecent = some buf) (hs : s.valid = true)
    (hr : r.validFor buf = true) (hb : bitmapOk b r.w r.h = true)
    (ht : env.completesInTime = true) (hg : env.gpuOk = true) :
    copySurfaceInto env s r (some b) =
      (CopyResult.Success, some (copyRegion buf r.left r.top r.w r.h b)) ∧
    ∀ x y, x < r.w → y < r.h →
      (copyRegion buf r.left r.top r.w r.h b).pix x y =
        buf.pix (r.left + x) (r.top + y) := by
  constructor
  · unfold copySurfaceInto
    rw [hq]
    simp [hs, hr, hb, ht, hg]
  · intro x y hx hy
    unfold copyRegion
    simp [hx, hy]

/-- witness for C3 at a concrete surface, rectangle and bitmap. -/
theorem copySurfaceInto_success_witness :
    copySurfaceInto ⟨true, true⟩ ⟨[⟨2, 2, fun x y => 10 * x + y⟩], true⟩
        ⟨0, 0, 2, 2⟩ (some ⟨2, 2, fun _ _ => 0⟩) =
      (CopyResult.Success,
        some (copyRegion ⟨2, 2, fun x y => 10 * x + y⟩ 0 0 2 2 ⟨2, 2, fun _ _ => 0⟩)) ∧
    (copyRegion ⟨2, 2, fun x y => 10 * x + y⟩ 0 0 2 2 ⟨2, 2, fun _ _ => 0⟩).pix 1 1 = 11 :=
  ⟨(copySurfaceInto_success ⟨true, true⟩ ⟨[⟨2, 2, fun x y => 10 * x + y⟩], true⟩
      ⟨0, 0, 2, 2⟩ ⟨2, 2, fun x y => 10 * x + y⟩ ⟨2, 2, fun _ _ => 0⟩
      rfl rfl (by decide) (by decide) rfl rfl).1,
   (copySurfaceInto_success ⟨true, true⟩ ⟨[⟨2, 2, fun x y => 10 * x + y⟩], true⟩
      ⟨0, 0, 2, 2⟩ ⟨2, 2, fun x y => 10 * x + y⟩ ⟨2, 2, fun _ _ => 0⟩
      rfl rfl (by decide) (by decide) rfl rfl).2 1 1 (by decide) (by decide)⟩

/-- C4: calling copySurfaceInto on a surface that has never queued a buffer
returns SourceEmpty and leaves the destination bitmap exactly as it was before
the call. -/
theorem copySurfaceInto_sourceEmpty (env : RenderEnv) (s : Surface) (r : Rect)
    (dst : Option Bitmap) (h : s.queued = []) :
    copySurfaceInto env s r dst = (CopyResult.SourceEmpty, dst) := by
  unfold copySurfaceInto Surface.mostRecent
  rw [h]
  rfl

/-- witness for C4 at a concrete never-queued surface and bitmap. -/
theorem copySurfaceInto_sourceEmpty_witness :
    copySurfaceInto ⟨true, true⟩ ⟨[], true⟩ ⟨0, 0, 1, 1⟩
        (some ⟨1, 1, fun _ _ => 5⟩) =
      (CopyResult.SourceEmpty, some ⟨1, 1, fun _ _ => 5⟩) :=
  copySurfaceInto_sourceEmpty ⟨true, true⟩ ⟨[], true⟩ ⟨0, 0, 1, 1⟩
    (some ⟨1, 1, fun _ _ => 5⟩) rfl

/-- C5 as stated is false: a copySurfaceInto call with a null destination
bitmap on a surface that has never queued a buffer returns SourceEmpty, not
DestinationInvalid, because the empty-source check precedes the destination
check in the spec's result-mapping order. -/
theorem destinationInvalid_counterexample :
    (copySurfaceInto ⟨true, true⟩ ⟨[], true⟩ ⟨0, 0, 1, 1⟩ none).1 =
        CopyResult.SourceEmpty ∧
    ¬ (copySurfaceInto ⟨true, true⟩ ⟨[], true⟩ ⟨0, 0, 1, 1⟩ none).1 =
        CopyResult.DestinationInvalid := by
  constructor
  · rfl
  · decide

/-- C5 amended: for every call of either operation whose source checks pass, a
null or zero-dimension destination bitmap makes the result
DestinationInvalid. -/
theorem destinationInvalid_on_null_or_zero (env : RenderEnv) (c : Call)
    (hs : c.sourceOk = true) (hd : badDst c.dst = true) :
    (perform env c).1 = CopyResult.DestinationInvalid := by
  cases c with
  | surf s r dst =>
    simp only [Call.sourceOk] at hs
    simp only [Call.dst] at hd
    cases hq : s.mostRecent with
    | none => rw [hq] at hs; simp at hs
    | some buf =>
      rw [hq] at hs
      simp at hs
      obtain ⟨hv, hr⟩ := hs
      show (copySurfaceInto env s r dst).1 = _
      cases dst with
      | none =>
        unfold copySurfaceInto
        rw [hq]
        simp [hv, hr]
      | some b =>
        simp only [badDst] at hd
        have hbo : bitmapOk b r.w r.h = false := by
          unfold bitmapOk
          rcases (Bool.or_eq_true _ _).mp hd with h0 | h0 <;>
            simp [of_decide_eq_true h0]
        unfold copySurfaceInto
        rw [hq]
        simp [hv, hr, hbo]
  | layer l dst =>
    simp only [Call.sourceOk] at hs
    simp only [Call.dst] at hd
    cases hq : l.texture with
    | none => rw [hq] at hs; simp at hs
    | some tex =>
      rw [hq] at hs
      simp at hs
      show (copyTextureLayerInto env l dst).1 = _
      cases dst with
      | none =>
        unfold copyTextureLayerInto
        rw [hq]
        simp [hs]
      | some b =>
        simp only [badDst] at hd
        have hbo : bitmapOk b tex.width tex.height = false := by
          unfold bitmapOk
          rcases (Bool.or_eq_true _ _).mp hd with h0 | h0 <;>
            simp [of_decide_eq_true h0]
        unfold copyTextureLayerInto
        rw [hq]
        simp [hs, hbo]

/-- witness for the amended C5: a valid surface source with a null destination
bitmap yields DestinationInvalid. -/
theorem destinationInvalid_witness :
    (perform ⟨true, true⟩
        (Call.surf ⟨[⟨1, 1, fun _ _ => 0⟩], true⟩ ⟨0, 0, 1, 1⟩ none)).1 =
      CopyResult.DestinationInvalid :=
  destinationInvalid_on_null_or_zero ⟨true, true⟩
    (Call.surf ⟨[⟨1, 1, fun _ _ => 0⟩], true⟩ ⟨0, 0, 1, 1⟩ none)
    (by decide) (by decide)

/-- C6: calling copyTextureLayerInto on a layer with no currently bound texture
returns SourceEmpty and leaves the bitmap as it was. -/
theorem copyTextureLayerInto_sourceEmpty (env : RenderEnv) (l : Layer)
    (dst : Option Bitmap) (h : l.texture = none) :
    copyTextureLayerInto env l dst = (CopyResult.SourceEmpty, dst) := by
  unfold copyTextureLayerInto
  rw [h]

/-- witness for C6 at a concrete texture-less layer. -/
theorem copyTextureLayerInto_sourceEmpty_witness :
    copyTextureLayerInto ⟨true, true⟩ ⟨none, true⟩
        (some ⟨1, 1, fun _ _ => 7⟩) =
      (CopyResult.SourceEmpty, some ⟨1, 1, fun _ _ => 7⟩) :=
  copyTextureLayerInto_sourceEmpty ⟨true, true⟩ ⟨none, true⟩
    (some ⟨1, 1, fun _ _ => 7⟩) rfl

/-- C7: for every call whose source and destination checks pass (so a transfer
is submitted) where the render thread does not complete the transfer within the
wait window, the result is Timeout and, in particular, not UnknownError. -/
theorem timeout_on_late_renderThread (env : RenderEnv) (c : Call)
    (hc : c.checksPass = true) (ht : env.completesInTime = false) :
    (perform env c).1 = CopyResult.Timeout ∧
      (perform env c).1 ≠ CopyResult.UnknownError := by
  have hres : (perform env c).1 = CopyResult.Timeout := by
    cases c with
    | surf s r dst =>
      simp only [Call.checksPass] at hc
      cases hq : s.mostRecent with
      | none => rw [hq] at hc; simp at hc
      | some buf =>
        rw [hq] at hc
        cases dst with
        | none => simp at hc
        | some b =>
          simp at hc
          obtain ⟨⟨hv, hr⟩, hb⟩ := hc
          show (copySurfaceInto env s r (some b)).1 = _
          unfold copySurfaceInto
          rw [hq]
          simp [hv, hr, hb, ht]
    | layer l dst =>
      simp only [Call.checksPass] at hc
      cases hq : l.texture with
      | none => rw [hq] at hc; simp at hc
      | some tex =>
        rw [hq] at hc
        cases dst with
        | none => simp at hc
        | some b =>
          simp at hc
          obtain ⟨hv, hb⟩ := hc
          show (copyTextureLayerInto env l (some b)).1 = _
          unfold copyTextureLayerInto
          rw [hq]
          simp [hv, hb, ht]
  refine ⟨hres, ?_⟩
  rw [hres]
  simp

/-- witness for C7: a fully valid request under a render thread that misses the
wait window yields Timeout. -/
theorem timeout_witness :
    (perform ⟨false, true⟩
        (Call.surf ⟨[⟨1, 1, fun _ _ => 0⟩], true⟩ ⟨0, 0, 1, 1⟩
          (some ⟨1, 1, fun _ _ => 0⟩))).1 = CopyResult.Timeout ∧
    (perform ⟨false, true⟩
        (Call.surf ⟨[⟨1, 1, fun _ _ => 0⟩], true⟩ ⟨0, 0, 1, 1⟩
          (some ⟨1, 1, fun _ _ => 0⟩))).1 ≠ CopyResult.UnknownError :=
  timeout_on_late_renderThread ⟨false, true⟩
    (Call.surf ⟨[⟨1, 1, fun _ _ => 0⟩], true⟩ ⟨0, 0, 1, 1⟩
      (some ⟨1, 1, fun _ _ => 0⟩))
    (by decide) rfl

/-- C8: the service keeps no state between calls: a sequence of requests
serialized by the render thread is each request performed on its own arguments,
so a call's result code and destination bitmap are unaffected by any earlier
calls, and repeating a call repeats its outcome. -/
theorem readback_stateless (pre : List (RenderEnv × Call)) (env : RenderEnv)
    (c : Call) :
    performAll (pre ++ [(env, c)]) = performAll pre ++ [perform env c] ∧
    performAll [(env, c), (env, c)] = [perform env c, perform env c] := by
  constructor
  · unfold performAll
    exact List.map_append _ _ _
  · rfl

/-- C9: two requests against valid sources, serialized by the render thread in
either order, each return Success, and in both orders each slot of the output
is the outcome of that request alone, computed from its own source and written
to its own destination bitmap, so neither output contaminates the other. -/
theorem concurrent_requests_independent (env1 env2 : RenderEnv) (c1 c2 : Call)
    (h1 : c1.checksPass = true) (h2 : c2.checksPass = true)
    (ht1 : env1.completesInTime = true) (hg1 : env1.gpuOk = true)
    (ht2 : env2.completesInTime = true) (hg2 : env2.gpuOk = true) :
    (perform env1 c1).1 = CopyResult.Success ∧
    (perform env2 c2).1 = CopyResult.Success ∧
    performAll [(env1, c1), (env2, c2)] = [perform env1 c1, perform env2 c2] ∧
    performAll [(env2, c2), (env1, c1)] = [perform env2 c2, perform env1 c1] :=
  ⟨perform_success env1 c1 h1 ht1 hg1, perform_success env2 c2 h2 ht2 hg2,
    rfl, rfl⟩

/-- witness for C9 at two concrete independent requests. -/
theorem concurrent_requests_witness :
    (perform ⟨true, true⟩
        (Call.surf ⟨[⟨1, 1, fun _ _ => 1⟩], true⟩ ⟨0, 0, 1, 1⟩
          (some ⟨1, 1, fun _ _ => 0⟩))).1 = CopyResult.Success ∧
    (perform ⟨true, true⟩
        (Call.layer ⟨some ⟨1, 1, fun _ _ => 2⟩, true⟩
          (some ⟨1, 1, fun _ _ => 0⟩))).1 = CopyResult.Success ∧
    performAll [(⟨true, true⟩,
        Call.surf ⟨[⟨1, 1, fun _ _ => 1⟩], true⟩ ⟨0, 0, 1, 1⟩
          (some ⟨1, 1, fun _ _ => 0⟩)),
      (⟨true, true⟩,
        Call.layer ⟨some ⟨1, 1, fun _ _ => 2⟩, true⟩
          (some ⟨1, 1, fun _ _ => 0⟩))] =
      [perform ⟨true, true⟩
        (Call.surf ⟨[⟨1, 1, fun _ _ => 1⟩], true⟩ ⟨0, 0, 1, 1⟩
          (some ⟨1, 1, fun _ _ => 0⟩)),
       perform ⟨true, true⟩
        (Call.layer ⟨some ⟨1, 1, fun _ _ => 2⟩, true⟩
          (some ⟨1, 1, fun _ _ => 0⟩))] ∧
    performAll [(⟨true, true⟩,
        Call.layer ⟨some ⟨1, 1, fun _ _ => 2⟩, true⟩
          (some ⟨1, 1, fun _ _ => 0⟩)),
      (⟨true, true⟩,
        Call.surf ⟨[⟨1, 1, fun _ _ => 1⟩], true⟩ ⟨0, 0, 1, 1⟩
          (some ⟨1, 1, fun _ _ => 0⟩))] =
      [perform ⟨true, true⟩
        (Call.layer ⟨some ⟨1, 1, fun _ _ => 2⟩, true⟩
          (some ⟨1, 1, fun _ _ => 0⟩)),
       perform ⟨true, true⟩
        (Call.surf ⟨[⟨1, 1, fun _ _ => 1⟩], true⟩ ⟨0, 0, 1, 1⟩
          (some ⟨1, 1, fun _ _ => 0⟩))] :=
  concurrent_requests_independent ⟨true, true⟩ ⟨true, true⟩
    (Call.surf ⟨[⟨1, 1, fun _ _ => 1⟩], true⟩ ⟨0, 0, 1, 1⟩
      (some ⟨1, 1, fun _ _ => 0⟩))
    (Call.layer ⟨some ⟨1, 1, fun _ _ => 2⟩, true⟩
      (some ⟨1, 1, fun _ _ => 0⟩))
    (by decide) (by decide) rfl rfl rfl rfl

/-- C10: copyTextureLayerInto takes no source rectangle: a successful call
copies the layer's entire currently bound texture into the bitmap, every texel
of the texture, so the interface offers no sub-region readback for a texture
layer. -/
theorem copyTextureLayerInto_whole_texture (env : RenderEnv) (l : Layer)
    (tex : Buffer) (b : Bitmap)
    (hl : l.texture = some tex) (hv : l.valid = true)
    (hb : bitmapOk b tex.width tex.height = true)
    (ht : env.completesInTime = true) (hg : env.gpuOk = true) :
    copyTextureLayerInto env l (some b) =
      (CopyResult.Success, some (copyRegion tex 0 0 tex.width tex.height b)) ∧
    ∀ x y, x < tex.width → y < tex.height →
      (copyRegion tex 0 0 tex.width tex.height b).pix x y = tex.pix x y := by
  constructor
  · unfold copyTextureLayerInto
    rw [hl]
    simp [hv, hb, ht, hg]
  · intro x y hx hy
    unfold copyRegion
    simp [hx, hy]

/-- witness for C10 at a concrete layer and bitmap. -/
theorem copyTextureLayerInto_whole_texture_witness :
    copyTextureLayerInto ⟨true, true⟩
        ⟨some ⟨2, 2, fun x y => x + 3 * y⟩, true⟩ (some ⟨2, 2, fun _ _ => 0⟩) =
      (CopyResult.Success,
        some (copyRegion ⟨2, 2, fun x y => x + 3 * y⟩ 0 0 2 2
          ⟨2, 2, fun _ _ => 0⟩)) ∧
    (copyRegion ⟨2, 2, fun x y => x + 3 * y⟩ 0 0 2 2
        ⟨2, 2, fun _ _ => 0⟩).pix 1 1 = 4 :=
  ⟨(copyTextureLayerInto_whole_texture ⟨true, true⟩
      ⟨some ⟨2, 2, fun x y => x + 3 * y⟩, true⟩ ⟨2, 2, fun x y => x + 3 * y⟩
      ⟨2, 2, fun _ _ => 0⟩ rfl rfl (by decide) rfl rfl).1,
   (copyTextureLayerInto_whole_texture ⟨true, true⟩
      ⟨some ⟨2, 2, fun x y => x + 3 * y⟩, true⟩ ⟨2, 2, fun x y => x + 3 * y⟩
      ⟨2, 2, fun _ _ => 0⟩ rfl rfl (by decide) rfl rfl).2 1 1
      (by decide) (by decide)⟩

end Hwui
